import Mathlib

/-!
# Verification of the SMS OTP service

A shallow embedding of the OTP lifecycle engine of `sms-app-backend`
(`sms_service/service.go`, `sms_service/transport/http.go`,
`sms_service/transport/endpoints.go`) together with proofs of the spec's
claims about it.

Conventions of the embedding:

* Timestamps and durations are integers in seconds (`Int`).  Go compares
  `time.Time` values with `After` (strict `>`) and durations with `>`;
  both are order comparisons, so the choice of unit does not matter.
* The Mongo-backed store is modelled as a map from phone number to an
  optional OTP record (`Store`).  The Mongo layer guarantees at most one
  record per phone (unique index), which the function type enforces.
* Fallible store operations are modelled by fault-injection flags carried
  in an environment record (`VerifyEnv`, `SendEnv`): a flag set means the
  corresponding repository call returns a non-nil error exactly where the
  Go code would observe one.
* `crypto/rand.Int(rand.Reader, big.NewInt(10))` returns a uniformly random
  integer in `[0, 10)` or an error; a successful run of `generateOTP` is
  therefore modelled by the list of six `Fin 10` draws it consumed.
* Go `nil`-error / value returns are modelled by `Except`; `VerifyOTP` in
  the source returns a non-nil response and a nil error on every path, so
  its model returns a plain response.
-/

/-! ## Data model (`models/models.go`) -/

/-- One OTP record, `models.OTP` (`models/models.go`).  The Mongo ObjectID
and the `createdAt`/`updatedAt` bookkeeping timestamps play no role in the
service logic and are omitted. -/
structure OTP where
  phone : String
  code : String
  expiresAt : Int
  attempts : Nat
  maxAttempts : Nat
deriving DecidableEq, Repr

/-- `models.OTPResponse`: the issuance response (`success`, `message`,
`otp` with `omitempty`, `expires_at`).  An unset string field is `""`. -/
structure OTPResponse where
  success : Bool
  message : String
  otp : String
  expiresAt : Int
deriving DecidableEq, Repr

/-- `models.VerifyOTPRequest`: phone number plus submitted code. -/
structure VerifyOTPRequest where
  phoneNumber : String
  otp : String
deriving DecidableEq, Repr

/-- `models.VerifyOTPResponse`. -/
structure VerifyOTPResponse where
  success : Bool
  message : String
  valid : Bool
deriving DecidableEq, Repr

/-- The structured failures the service returns (`common.NewInternalError`,
`common.NewServiceUnavailableError`). -/
inductive AppError where
  | internal (msg : String)
  | serviceUnavailable (what : String)
deriving DecidableEq, Repr

/-! ## The store (`repository/mongo/mongo.go`, OTP collection) -/

/-- The OTP store: at most one record per phone number, as guaranteed by the
repository's unique phone index. -/
abbrev Store := String → Option OTP

/-- The empty store. -/
def emptyStore : Store := fun _ => none

/-- `repo.OTP().DeleteByPhone`: removes the record for `p`, if any.  The Go
service discards this call's error on every call site, so it is modelled as
always succeeding. -/
def storeDeleteByPhone (s : Store) (p : String) : Store :=
  fun q => if q = p then none else s q

/-- `repo.OTP().Create`: inserts the record, keyed by its phone. -/
def storeCreate (s : Store) (r : OTP) : Store :=
  fun q => if q = r.phone then some r else s q

/-- `repo.OTP().IncrementAttempts`: Mongo `$inc` of the `attempts` field of
the record matching the phone (no-op when no record matches). -/
def storeIncrementAttempts (s : Store) (p : String) : Store :=
  fun q => if q = p then (s q).map (fun r => { r with attempts := r.attempts + 1 }) else s q

/-- `repo.OTP().FindByPhone` as observed by the service.  The Mongo
implementation returns `(nil, err)` both when the store fails and when no
document matches (`ErrNoDocuments`), and returns `(&otp, nil)` otherwise, so
the pair `(err, record)` collapses to a single `Option`: `none` exactly when
the service's miss test `err != nil || storedOTP == nil` holds.  `fail`
injects a store failure. -/
def findByPhone (fail : Bool) (s : Store) (p : String) : Option OTP :=
  if fail then none else s p

/-! ## OTP generation (`generateOTP`, service.go lines 304–315)

The Go loop runs six iterations; each draws `rand.Int(rand.Reader, 10)`
(a value in `[0, 10)` on success) and appends its decimal rendering
(`fmt.Sprintf("%d", num.Int64())`) to the accumulator string.  A successful
run is determined by the six draws, passed here as a list of `Fin 10`. -/

/-- `generateOTP`, modelled on the list of successful random draws it
consumed: starts from the empty string and appends the decimal rendering of
each draw in turn. -/
def generateOTP (digits : List (Fin 10)) : String :=
  digits.foldl (fun acc d => acc ++ toString d.val) ""

/-! ## The verifier (`VerifyOTP`, service.go lines 209–271) -/

/-- Fault-injection environment for one `VerifyOTP` call: `findErr` makes
the `FindByPhone` lookup fail, `incErr` makes the `IncrementAttempts`
update fail (the service only logs that failure). -/
structure VerifyEnv where
  findErr : Bool
  incErr : Bool
deriving DecidableEq, Repr

/-- Response of the lookup-miss / lookup-error branch (service.go 216–220). -/
def notFoundResp : VerifyOTPResponse :=
  { success := false
    message := "OTP not found or expired. Please request a new OTP."
    valid := false }

/-- Response of the expiry branch (service.go 228–232). -/
def expiredResp : VerifyOTPResponse :=
  { success := false
    message := "OTP expired. Please request a new OTP."
    valid := false }

/-- Response of the attempt-ceiling branch (service.go 238–242). -/
def maxAttemptsResp : VerifyOTPResponse :=
  { success := false
    message := "Maximum verification attempts reached. Please request a new OTP."
    valid := false }

/-- Response of the successful match (service.go 258–262). -/
def verifiedResp : VerifyOTPResponse :=
  { success := true
    message := "OTP verified successfully"
    valid := true }

/-- Response of the mismatch branch (service.go 266–270). -/
def invalidResp : VerifyOTPResponse :=
  { success := false
    message := "Invalid OTP. Please try again."
    valid := false }

/-- `VerifyOTP` (service.go 209–271).  The Go function returns a non-nil
response and a nil error on every path; the model returns the response and
the store after the call.  `time.Now().After(storedOTP.ExpiresAt)` is
`now > expiresAt`; a failed `IncrementAttempts` is logged and otherwise
ignored, so on `incErr` the store keeps the old attempt count. -/
def VerifyOTP (e : VerifyEnv) (s : Store) (now : Int) (req : VerifyOTPRequest) :
    VerifyOTPResponse × Store :=
  match findByPhone e.findErr s req.phoneNumber with
  | none => (notFoundResp, s)
  | some storedOTP =>
    if storedOTP.expiresAt < now then
      (expiredResp, storeDeleteByPhone s req.phoneNumber)
    else if storedOTP.maxAttempts ≤ storedOTP.attempts then
      (maxAttemptsResp, s)
    else
      let s2 := if e.incErr then s else storeIncrementAttempts s req.phoneNumber
      if storedOTP.code = req.otp then
        (verifiedResp, storeDeleteByPhone s2 req.phoneNumber)
      else
        (invalidResp, s2)

/-! ## The issuer (`SendOTP`, service.go lines 144–206) -/

/-- Resend cooldown threshold, `2 * time.Minute` (service.go 152). -/
def twoMinutes : Int := 120

/-- OTP validity, `5 * time.Minute` (service.go 172). -/
def fiveMinutes : Int := 300

/-- Fault-injection environment for one `SendOTP` call: `findErr` fails the
initial lookup, `genResult` is the outcome of `generateOTP` (`none` on a
random-source error), `createErr` fails the `Create` store write,
`dispatchErr` fails the outbound `smsClient.SendOTP` call. -/
structure SendEnv where
  findErr : Bool
  genResult : Option String
  createErr : Bool
  dispatchErr : Bool

/-- Result of a `SendOTP` call: the Go `(*models.OTPResponse, error)` pair
(exactly one side non-nil, hence `Except`), the store after the call, and
the trace of dispatch calls `(phone, code)` made to the SMS client. -/
structure SendResult where
  res : Except AppError OTPResponse
  store : Store
  sent : List (String × String)

/-- The cooldown response (service.go 153–157): `Success: false`, the
existing record's expiry, `OTP` left unset. -/
def alreadySentResp (expiresAt : Int) : OTPResponse :=
  { success := false
    message := "OTP already sent. Please wait before requesting a new one."
    otp := ""
    expiresAt := expiresAt }

/-- Common tail of `SendOTP` after the existing-record check (service.go
164–205): generate, store, dispatch, respond.  `time.Until` failures of the
two `DeleteByPhone` calls are discarded by the source. -/
def sendFresh (e : SendEnv) (s : Store) (now : Int) (phone : String) : SendResult :=
  match e.genResult with
  | none =>
    { res := .error (.internal "Failed to generate OTP"), store := s, sent := [] }
  | some code =>
    let expiry := now + fiveMinutes
    let otpRecord : OTP :=
      { phone := phone, code := code, expiresAt := expiry, attempts := 0, maxAttempts := 3 }
    if e.createErr then
      { res := .error (.internal "Failed to store OTP"), store := s, sent := [] }
    else
      let s2 := storeCreate s otpRecord
      if e.dispatchErr then
        { res := .error (.serviceUnavailable "SMS provider")
          store := storeDeleteByPhone s2 phone
          sent := [(phone, code)] }
      else
        { res := .ok { success := true, message := "OTP sent successfully"
                       otp := code, expiresAt := expiry }
          store := s2
          sent := [(phone, code)] }

/-- `SendOTP` (service.go 144–206).  `time.Until(expiresAt) > 2*time.Minute`
is `expiresAt - now > twoMinutes`; when the cooldown has elapsed the
existing record is deleted before the fresh issuance. -/
def SendOTP (e : SendEnv) (s : Store) (now : Int) (phone : String) : SendResult :=
  match findByPhone e.findErr s phone with
  | some existingOTP =>
    if twoMinutes < existingOTP.expiresAt - now then
      { res := .ok (alreadySentResp existingOTP.expiresAt), store := s, sent := [] }
    else
      sendFresh e (storeDeleteByPhone s phone) now phone
  | none => sendFresh e s now phone

/-- The send-OTP HTTP endpoint's post-processing of a successful service
response (`makeSendOTPEndpoint`, endpoints.go 84–87): on `Success` the `OTP`
field is blanked before the response is written to the caller. -/
def sendOTPEndpointResponse (r : OTPResponse) : OTPResponse :=
  if r.success then { r with otp := "" } else r

/-! ## The request throttle (`RateLimitMiddleware`, http.go lines 97–148)

Per phone key the middleware keeps the list of request timestamps
(`time.Now().Unix()`, seconds).  On a request it drops timestamps not newer
than `now - 60`, rejects (HTTP 429, request not recorded) if at least five
remain, and otherwise records the new timestamp and admits the request.  A
phone with no map entry skips the check and records directly — identical to
filtering the empty list, so both cases are one function. -/

/-- One step of the per-phone rate limiter: the new timestamp list and
whether the request was admitted (`false` = rejected with the rate-limit
outcome). -/
def rateLimitStep (l : List Int) (now : Int) : List Int × Bool :=
  let valid := l.filter (fun ts => now - 60 < ts)
  if 5 ≤ valid.length then (valid, false) else (valid ++ [now], true)

/-- A sequence of requests for one phone, starting from no recorded
timestamps: returns the final list and the per-request admission outcomes. -/
def runRateLimit (times : List Int) : List Int × List Bool :=
  times.foldl
    (fun st t =>
      let step := rateLimitStep st.1 t
      (step.1, st.2 ++ [step.2]))
    ([], [])

/-! ## Concrete fixtures used by closed theorems -/

/-- A fault-free verifier environment. -/
def noErrEnv : VerifyEnv := { findErr := false, incErr := false }

/-- A verifier environment whose `FindByPhone` lookup fails. -/
def findErrEnv : VerifyEnv := { findErr := true, incErr := false }

/-- A verifier environment whose `IncrementAttempts` update fails. -/
def incErrEnv : VerifyEnv := { findErr := false, incErr := true }

/-- A fresh record for the spec's scenario phone: code `123456`, expiry at
time 300, no attempts yet, ceiling 3. -/
def scenarioOTP : OTP :=
  { phone := "+15551230000", code := "123456", expiresAt := 300
    attempts := 0, maxAttempts := 3 }

/-- A store holding exactly `scenarioOTP`. -/
def scenarioStore : Store := storeCreate emptyStore scenarioOTP

/-- The scenario's wrong-code verification request. -/
def wrongReq : VerifyOTPRequest := { phoneNumber := "+15551230000", otp := "123457" }

/-- The scenario's correct-code verification request. -/
def rightReq : VerifyOTPRequest := { phoneNumber := "+15551230000", otp := "123456" }

/-- Store after the first wrong-code verify of the scenario. -/
def scenarioS1 : Store := (VerifyOTP noErrEnv scenarioStore 0 wrongReq).2

/-- Store after the second wrong-code verify of the scenario. -/
def scenarioS2 : Store := (VerifyOTP noErrEnv scenarioS1 0 wrongReq).2

/-- The third wrong-code verify of the scenario. -/
def scenarioCall3 : VerifyOTPResponse × Store := VerifyOTP noErrEnv scenarioS2 0 wrongReq

/-- The store after `n` consecutive `VerifyOTP` calls with the same request
at the same instant, starting from `s`. -/
def verifyRepeat (e : VerifyEnv) (s : Store) (now : Int) (req : VerifyOTPRequest) : Nat → Store
  | 0 => s
  | Nat.succ n => (VerifyOTP e (verifyRepeat e s now req n) now req).2

/-- A fault-free issuance environment generating the code `999999`. -/
def okSendEnv : SendEnv :=
  { findErr := false, genResult := some "999999", createErr := false, dispatchErr := false }

/-- An issuance environment whose outbound dispatch call fails. -/
def dispatchFailEnv : SendEnv :=
  { findErr := false, genResult := some "999999", createErr := false, dispatchErr := true }

/-! ## Theorems -/

/-! ### Store lemmas -/

@[simp] theorem storeDeleteByPhone_same (s : Store) (p : String) :
    storeDeleteByPhone s p p = none := by
  simp [storeDeleteByPhone]

@[simp] theorem storeCreate_same (s : Store) (r : OTP) :
    storeCreate s r r.phone = some r := by
  simp [storeCreate]

@[simp] theorem storeIncrementAttempts_same (s : Store) (p : String) :
    storeIncrementAttempts s p p
      = (s p).map (fun r => { r with attempts := r.attempts + 1 }) := by
  simp [storeIncrementAttempts]

/-! ### OTP generation -/

/-- Rendering a single value below ten yields the corresponding single
decimal digit character. -/
theorem toString_fin10_data (d : Fin 10) :
    (toString d.val).data = [Char.ofNat (48 + d.val)] := by
  fin_cases d <;> decide

/-- The characters of a `generateOTP` run are exactly the decimal digit
characters of the draws, in order. -/
theorem generateOTP_data (digits : List (Fin 10)) :
    (generateOTP digits).data = digits.map (fun d => Char.ofNat (48 + d.val)) := by
  suffices h : ∀ (l : List (Fin 10)) (acc : String),
      (l.foldl (fun acc d => acc ++ toString d.val) acc).data
        = acc.data ++ l.map (fun d => Char.ofNat (48 + d.val)) by
    simpa using h digits ""
  intro l
  induction l with
  | nil => intro acc; simp
  | cons d l ih =>
    intro acc
    simp [ih, toString_fin10_data]

/-- Every decimal digit character rendered from a value below ten satisfies
`Char.isDigit`. -/
theorem char_ofNat_digit (d : Fin 10) : (Char.ofNat (48 + d.val)).isDigit := by
  fin_cases d <;> decide

/-- C8: every code produced by `generateOTP` from a successful run of six
random draws is a string of exactly six characters, each a decimal digit
`'0'`–`'9'` (`Char.isDigit`).  Each draw models one successful
`crypto/rand.Int(rand.Reader, 10)` result; uniformity and independence are
properties of that random source, outside the embedding. -/
theorem generateOTP_six_digits (digits : List (Fin 10)) (h : digits.length = 6) :
    (generateOTP digits).length = 6
      ∧ ∀ c ∈ (generateOTP digits).data, c.isDigit := by
  constructor
  · show (generateOTP digits).data.length = 6
    rw [generateOTP_data, List.length_map, h]
  · intro c hc
    rw [generateOTP_data] at hc
    obtain ⟨d, _, rfl⟩ := List.mem_map.mp hc
    exact char_ofNat_digit d

/-- Witness for C8 at the concrete draw list `[0, 1, 2, 3, 4, 5]`. -/
theorem generateOTP_six_digits_witness :
    ([0, 1, 2, 3, 4, 5] : List (Fin 10)).length = 6
      ∧ ((generateOTP [0, 1, 2, 3, 4, 5]).length = 6
          ∧ ∀ c ∈ (generateOTP [0, 1, 2, 3, 4, 5]).data, c.isDigit) :=
  ⟨by decide, generateOTP_six_digits [0, 1, 2, 3, 4, 5] (by decide)⟩

/-! ### Request throttle -/

/-- C7: the throttle admits at most five issuance requests per phone within
a trailing 60-second window.  First conjunct: a request arriving when five
or more timestamps of the last 60 seconds are already recorded is rejected
(`false`) and its timestamp is not recorded (the state keeps only the
filtered timestamps).  Second conjunct: an admitted request leaves at most
five timestamps in the window.  Third conjunct: six issuance requests for
one phone within ten seconds (at seconds 0–5) have exactly the sixth
rejected with the rate-limit outcome. -/
theorem rateLimit_window_cap :
    (∀ (l : List Int) (now : Int),
        5 ≤ (l.filter (fun ts => now - 60 < ts)).length →
          rateLimitStep l now = (l.filter (fun ts => now - 60 < ts), false))
    ∧ (∀ (l : List Int) (now : Int),
        (rateLimitStep l now).2 = true →
          ((rateLimitStep l now).1.filter (fun ts => now - 60 < ts)).length ≤ 5)
    ∧ (runRateLimit [0, 1, 2, 3, 4, 5]).2 = [true, true, true, true, true, false] := by
  refine ⟨?_, ?_, ?_⟩
  · intro l now h
    simp only [rateLimitStep, if_pos h]
  · intro l now h
    by_cases h5 : 5 ≤ (l.filter (fun ts => now - 60 < ts)).length
    · simp [rateLimitStep, if_pos h5] at h
    · have hstep : rateLimitStep l now = (l.filter (fun ts => now - 60 < ts) ++ [now], true) := by
        simp only [rateLimitStep, if_neg h5]
      rw [hstep]
      rw [List.filter_append, List.length_append]
      have h1 : ((l.filter (fun ts => decide (now - 60 < ts))).filter
            (fun ts => decide (now - 60 < ts))).length
          ≤ (l.filter (fun ts => decide (now - 60 < ts))).length :=
        List.length_filter_le _ _
      have h2 : (([now] : List Int).filter (fun ts => decide (now - 60 < ts))).length
          ≤ ([now] : List Int).length :=
        List.length_filter_le _ _
      simp only [List.length_singleton] at h2
      omega
  · decide

/-- Witness for C7's rejection property: five fresh timestamps recorded,
the next request at second 60 is rejected and not recorded. -/
theorem rateLimit_window_cap_witness :
    5 ≤ (([10, 20, 30, 40, 50] : List Int).filter (fun ts => (60 : Int) - 60 < ts)).length
      ∧ rateLimitStep [10, 20, 30, 40, 50] 60
          = (([10, 20, 30, 40, 50] : List Int).filter (fun ts => (60 : Int) - 60 < ts), false) :=
  ⟨by decide, rateLimit_window_cap.1 [10, 20, 30, 40, 50] 60 (by decide)⟩

/-! ### Verifier: shared lemmas -/

/-- A verification whose lookup misses (no record, or an injected lookup
failure) returns the not-found response and leaves the store unchanged. -/
theorem verifyOTP_miss (e : VerifyEnv) (s : Store) (now : Int) (req : VerifyOTPRequest)
    (h : findByPhone e.findErr s req.phoneNumber = none) :
    VerifyOTP e s now req = (notFoundResp, s) := by
  simp [VerifyOTP, h]

/-! ### Verifier: guard order -/

/-- C1: `VerifyOTP` evaluates its guards in a fixed order on a found record.
First conjunct: when the expiry has passed (`now > expiresAt`), the record
is deleted and the rejected `expired` response is returned, with no attempt
increment (the resulting store is exactly the deletion of the original) and
`valid = false` for every submitted code.  Second conjunct: otherwise, when
`attempts ≥ maxAttempts`, the rejected `max attempts` response is returned
with the store untouched — no increment, and no code comparison (the result
does not depend on `req.otp`).  Third conjunct: only when both guards pass
are the attempts incremented and the codes compared. -/
theorem verifyOTP_guard_order (e : VerifyEnv) (s : Store) (now : Int)
    (req : VerifyOTPRequest) (r : OTP)
    (hfind : e.findErr = false) (hinc : e.incErr = false)
    (hrec : s req.phoneNumber = some r) :
    (r.expiresAt < now →
      VerifyOTP e s now req = (expiredResp, storeDeleteByPhone s req.phoneNumber)
        ∧ (VerifyOTP e s now req).1.valid = false)
    ∧ (¬ r.expiresAt < now → r.maxAttempts ≤ r.attempts →
      VerifyOTP e s now req = (maxAttemptsResp, s))
    ∧ (¬ r.expiresAt < now → r.attempts < r.maxAttempts →
      VerifyOTP e s now req =
        (if r.code = req.otp then
          (verifiedResp,
           storeDeleteByPhone (storeIncrementAttempts s req.phoneNumber) req.phoneNumber)
        else
          (invalidResp, storeIncrementAttempts s req.phoneNumber))) := by
  have hlook : findByPhone e.findErr s req.phoneNumber = some r := by
    simp [findByPhone, hfind, hrec]
  refine ⟨?_, ?_, ?_⟩
  · intro hexp
    have heq : VerifyOTP e s now req = (expiredResp, storeDeleteByPhone s req.phoneNumber) := by
      simp [VerifyOTP, hlook, hexp]
    refine ⟨heq, ?_⟩
    rw [heq]
    rfl
  · intro hexp hceil
    simp [VerifyOTP, hlook, hexp, hceil]
  · intro hexp hatt
    have hceil : ¬ r.maxAttempts ≤ r.attempts := by omega
    simp [VerifyOTP, hlook, hexp, hceil, hinc]

/-- Witness for C1: the scenario record has expired at time 400, so
verification with the (correct!) stored code deletes it and rejects. -/
theorem verifyOTP_guard_order_witness :
    VerifyOTP noErrEnv scenarioStore 400 rightReq
      = (expiredResp, storeDeleteByPhone scenarioStore rightReq.phoneNumber) :=
  ((verifyOTP_guard_order noErrEnv scenarioStore 400 rightReq scenarioOTP rfl rfl
      (by decide)).1 (by decide)).1

/-! ### Verifier: correct code verifies exactly once -/

/-- C3: with a live record below the attempt ceiling, verifying with the
stored code returns the `VERIFIED` response, deletes the record, and any
immediately following verification for that phone (any code, any time, any
attempt-increment fault) is rejected with the not-found-or-expired
response. -/
theorem verifyOTP_correct_once (e : VerifyEnv) (s : Store) (now : Int)
    (req : VerifyOTPRequest) (r : OTP)
    (hfind : e.findErr = false) (hrec : s req.phoneNumber = some r)
    (hexp : ¬ r.expiresAt < now) (hatt : r.attempts < r.maxAttempts)
    (hcode : req.otp = r.code) :
    (VerifyOTP e s now req).1 = verifiedResp
    ∧ (VerifyOTP e s now req).2 req.phoneNumber = none
    ∧ ∀ (e2 : VerifyEnv) (now2 : Int) (otp2 : String), e2.findErr = false →
        (VerifyOTP e2 (VerifyOTP e s now req).2 now2
          { phoneNumber := req.phoneNumber, otp := otp2 }).1 = notFoundResp := by
  have hceil : ¬ r.maxAttempts ≤ r.attempts := by omega
  have heq : VerifyOTP e s now req
      = (verifiedResp,
         storeDeleteByPhone (if e.incErr then s else storeIncrementAttempts s req.phoneNumber)
           req.phoneNumber) := by
    simp [VerifyOTP, findByPhone, hfind, hrec, hexp, hceil, hcode]
  have hnone : (VerifyOTP e s now req).2 req.phoneNumber = none := by
    rw [heq]; simp
  refine ⟨by rw [heq], hnone, ?_⟩
  intro e2 now2 otp2 hf2
  have hmiss : findByPhone e2.findErr (VerifyOTP e s now req).2 req.phoneNumber = none := by
    simp [findByPhone, hf2, hnone]
  rw [verifyOTP_miss e2 (VerifyOTP e s now req).2 now2
    { phoneNumber := req.phoneNumber, otp := otp2 } hmiss]

/-- Witness for C3: the scenario record verifies with its stored code. -/
theorem verifyOTP_correct_once_witness :
    (VerifyOTP noErrEnv scenarioStore 0 rightReq).1 = verifiedResp :=
  (verifyOTP_correct_once noErrEnv scenarioStore 0 rightReq scenarioOTP rfl
    (by decide) (by decide) (by decide) rfl).1

/-! ### Verifier: attempt ceiling -/

/-- A fault-free verification against a live, below-ceiling record with a
wrong code returns the invalid-code response and increments the attempt
counter. -/
theorem verifyOTP_wrong_step (s : Store) (now : Int) (p w : String) (r : OTP)
    (hrec : s p = some r) (hexp : ¬ r.expiresAt < now) (hatt : r.attempts < r.maxAttempts)
    (hw : ¬ r.code = w) :
    VerifyOTP noErrEnv s now { phoneNumber := p, otp := w }
      = (invalidResp, storeIncrementAttempts s p) := by
  have hceil : ¬ r.maxAttempts ≤ r.attempts := by omega
  simp [VerifyOTP, findByPhone, noErrEnv, hrec, hexp, hceil, hw]

/-- A fault-free verification against a live record at or above the attempt
ceiling returns the max-attempts response, with the store untouched and the
submitted code never compared. -/
theorem verifyOTP_ceiling_step (s : Store) (now : Int) (p w : String) (r : OTP)
    (hrec : s p = some r) (hexp : ¬ r.expiresAt < now) (hceil : r.maxAttempts ≤ r.attempts) :
    VerifyOTP noErrEnv s now { phoneNumber := p, otp := w } = (maxAttemptsResp, s) := by
  simp [VerifyOTP, findByPhone, noErrEnv, hrec, hexp, hceil]

/-- C2 counterexample: starting from the fresh scenario record
(attempts 0, ceiling 3, unexpired), the third wrong-code verification
returns the invalid-code response, not the max-attempts response — the
ceiling guard runs before the increment, so the third call still sees
`attempts = 2 < 3`. -/
theorem verify_third_wrong_not_max :
    scenarioCall3.1 = invalidResp ∧ invalidResp ≠ maxAttemptsResp := by
  exact ⟨by decide, by decide⟩

/-- C2 (amended): starting from a fresh record (attempts 0, ceiling 3,
unexpired), three wrong-code verifications each return the invalid-code
rejection; after the third the stored attempt counter is 3, and a
subsequent verification with the correct code is rejected by the
max-attempts guard without the code being compared. -/
theorem verify_three_wrong_then_ceiling (s : Store) (now : Int) (p w : String) (r : OTP)
    (hrec : s p = some r) (h0 : r.attempts = 0) (hmax : r.maxAttempts = 3)
    (hexp : ¬ r.expiresAt < now) (hw : ¬ r.code = w) :
    ((VerifyOTP noErrEnv (verifyRepeat noErrEnv s now ⟨p, w⟩ 0) now ⟨p, w⟩).1 = invalidResp
      ∧ (VerifyOTP noErrEnv (verifyRepeat noErrEnv s now ⟨p, w⟩ 1) now ⟨p, w⟩).1 = invalidResp
      ∧ (VerifyOTP noErrEnv (verifyRepeat noErrEnv s now ⟨p, w⟩ 2) now ⟨p, w⟩).1 = invalidResp)
    ∧ verifyRepeat noErrEnv s now ⟨p, w⟩ 3 p = some { r with attempts := 3 }
    ∧ (VerifyOTP noErrEnv (verifyRepeat noErrEnv s now ⟨p, w⟩ 3) now ⟨p, r.code⟩).1
        = maxAttemptsResp := by
  have hstep0 := verifyOTP_wrong_step s now p w r hrec hexp (by omega) hw
  have hrec1 : storeIncrementAttempts s p p = some { r with attempts := r.attempts + 1 } := by
    rw [storeIncrementAttempts_same, hrec]
    rfl
  have hstep1 := verifyOTP_wrong_step (storeIncrementAttempts s p) now p w
    { r with attempts := r.attempts + 1 } hrec1 hexp
    (show r.attempts + 1 < r.maxAttempts by omega) hw
  have hrec2 : storeIncrementAttempts (storeIncrementAttempts s p) p p
      = some { r with attempts := r.attempts + 1 + 1 } := by
    rw [storeIncrementAttempts_same, hrec1]
    rfl
  have hstep2 := verifyOTP_wrong_step (storeIncrementAttempts (storeIncrementAttempts s p) p)
    now p w { r with attempts := r.attempts + 1 + 1 } hrec2 hexp
    (show r.attempts + 1 + 1 < r.maxAttempts by omega) hw
  have hrec3 : storeIncrementAttempts
        (storeIncrementAttempts (storeIncrementAttempts s p) p) p p
      = some { r with attempts := r.attempts + 1 + 1 + 1 } := by
    rw [storeIncrementAttempts_same, hrec2]
    rfl
  have hstepF := verifyOTP_ceiling_step
    (storeIncrementAttempts (storeIncrementAttempts (storeIncrementAttempts s p) p) p)
    now p r.code { r with attempts := r.attempts + 1 + 1 + 1 } hrec3 hexp
    (show r.maxAttempts ≤ r.attempts + 1 + 1 + 1 by omega)
  have hchain1 : verifyRepeat noErrEnv s now ⟨p, w⟩ 1 = storeIncrementAttempts s p := by
    simp [verifyRepeat, hstep0]
  have hchain2 : verifyRepeat noErrEnv s now ⟨p, w⟩ 2
      = storeIncrementAttempts (storeIncrementAttempts s p) p := by
    simp [verifyRepeat, hstep0, hstep1]
  have hchain3 : verifyRepeat noErrEnv s now ⟨p, w⟩ 3
      = storeIncrementAttempts (storeIncrementAttempts (storeIncrementAttempts s p) p) p := by
    simp [verifyRepeat, hstep0, hstep1, hstep2]
  refine ⟨⟨?_, ?_, ?_⟩, ?_, ?_⟩
  · show (VerifyOTP noErrEnv s now ⟨p, w⟩).1 = invalidResp
    rw [hstep0]
  · rw [hchain1, hstep1]
  · rw [hchain2, hstep2]
  · rw [hchain3, hrec3, h0]
  · rw [hchain3, hstepF]

/-- Witness for the amended C2 at the scenario inputs: the fourth call with
the correct code is rejected by the ceiling. -/
theorem verify_three_wrong_then_ceiling_witness :
    (VerifyOTP noErrEnv
        (verifyRepeat noErrEnv scenarioStore 0 ⟨"+15551230000", "123457"⟩ 3) 0
        ⟨"+15551230000", scenarioOTP.code⟩).1 = maxAttemptsResp :=
  (verify_three_wrong_then_ceiling scenarioStore 0 "+15551230000" "123457" scenarioOTP
    (by decide) rfl rfl (by decide) (by decide)).2.2

/-! ### Verifier: storage errors -/

/-- C6 counterexample: with a live, fresh record in the store, a failing
lookup makes `VerifyOTP` return exactly the same not-found-or-expired
rejection (and nil error) that a genuine missing record produces — the
storage failure is not distinguishable from the normal rejection. -/
theorem verify_storage_error_indistinct :
    VerifyOTP findErrEnv scenarioStore 0 rightReq = (notFoundResp, scenarioStore)
      ∧ VerifyOTP noErrEnv emptyStore 0 rightReq = (notFoundResp, emptyStore) :=
  ⟨rfl, rfl⟩

/-- C6 (amended): storage errors during verification are swallowed, not
surfaced.  A failing lookup yields the not-found-or-expired rejection with
the store unchanged, for every store and request; a failing attempt
increment is logged and ignored — the response is identical to the one of
the fault-free run. -/
theorem verify_storage_error_swallowed :
    (∀ (e : VerifyEnv) (s : Store) (now : Int) (req : VerifyOTPRequest),
        e.findErr = true → VerifyOTP e s now req = (notFoundResp, s))
    ∧ (∀ (s : Store) (now : Int) (req : VerifyOTPRequest),
        (VerifyOTP incErrEnv s now req).1 = (VerifyOTP noErrEnv s now req).1) := by
  constructor
  · intro e s now req h
    simp [VerifyOTP, findByPhone, h]
  · intro s now req
    simp only [VerifyOTP, findByPhone, incErrEnv, noErrEnv]
    cases hs : s req.phoneNumber with
    | none => rfl
    | some r =>
      by_cases h1 : r.expiresAt < now
      · simp [h1]
      · by_cases h2 : r.maxAttempts ≤ r.attempts
        · simp [h1, h2]
        · by_cases h3 : r.code = req.otp
          · simp [h1, h2, h3]
          · simp [h1, h2, h3]

/-- Witness for the amended C6: a failing lookup on the empty store at time
five returns the not-found rejection unchanged. -/
theorem verify_storage_error_swallowed_witness :
    VerifyOTP findErrEnv emptyStore 5 rightReq = (notFoundResp, emptyStore) :=
  verify_storage_error_swallowed.1 findErrEnv emptyStore 5 rightReq rfl

/-! ### Issuer: cooldown frame -/

/-- C4: when `SendOTP` finds an existing record whose expiry lies more than
two minutes in the future, it returns the non-error already-sent response
carrying that record's expiry unchanged, the store is returned exactly as it
was (no mutation — the stored code, expiry and attempts are as before), and
no dispatch call is made. -/
theorem sendOTP_cooldown_frame (e : SendEnv) (s : Store) (now : Int) (phone : String) (r : OTP)
    (hfind : e.findErr = false) (hrec : s phone = some r)
    (hcool : twoMinutes < r.expiresAt - now) :
    SendOTP e s now phone
      = { res := .ok (alreadySentResp r.expiresAt), store := s, sent := [] } := by
  have hlook : findByPhone e.findErr s phone = some r := by
    simp [findByPhone, hfind, hrec]
  simp [SendOTP, hlook, hcool]

/-- Witness for C4: reissuing for the scenario phone at time 0 (expiry 300,
so 180 seconds beyond the cooldown threshold) changes nothing. -/
theorem sendOTP_cooldown_frame_witness :
    SendOTP okSendEnv scenarioStore 0 "+15551230000"
      = { res := .ok (alreadySentResp scenarioOTP.expiresAt)
          store := scenarioStore, sent := [] } :=
  sendOTP_cooldown_frame okSendEnv scenarioStore 0 "+15551230000" scenarioOTP rfl
    (by decide) (by decide)

/-! ### Issuer: dispatch-failure rollback -/

/-- The post-lookup tail of `SendOTP`: whenever it returns the
transport-failure outcome, the record it just created has been deleted. -/
theorem sendFresh_unavailable_rollback (e : SendEnv) (s : Store) (now : Int) (phone : String)
    (h : (sendFresh e s now phone).res = .error (.serviceUnavailable "SMS provider")) :
    (sendFresh e s now phone).store phone = none := by
  cases hg : e.genResult with
  | none => simp [sendFresh, hg] at h
  | some code =>
    by_cases hc : e.createErr
    · simp [sendFresh, hg, hc] at h
    · by_cases hd : e.dispatchErr
      · simp [sendFresh, hg, hc, hd]
      · simp [sendFresh, hg, hc, hd] at h

/-- C5: issuance is atomic from the caller's perspective.  Whenever
`SendOTP` returns the transport-failure outcome (`ServiceUnavailable "SMS
provider"`, produced exactly when the outbound dispatch call fails), the
just-created OTP record has been deleted: no record remains for the phone
after the call. -/
theorem sendOTP_dispatch_rollback (e : SendEnv) (s : Store) (now : Int) (phone : String)
    (h : (SendOTP e s now phone).res = .error (.serviceUnavailable "SMS provider")) :
    (SendOTP e s now phone).store phone = none := by
  cases hf : findByPhone e.findErr s phone with
  | none =>
    have h' : (sendFresh e s now phone).res = .error (.serviceUnavailable "SMS provider") := by
      simpa [SendOTP, hf] using h
    have := sendFresh_unavailable_rollback e s now phone h'
    simpa [SendOTP, hf]
  | some r =>
    by_cases hcool : twoMinutes < r.expiresAt - now
    · simp [SendOTP, hf, hcool] at h
    · have h' : (sendFresh e (storeDeleteByPhone s phone) now phone).res
          = .error (.serviceUnavailable "SMS provider") := by
        simpa [SendOTP, hf, hcool] using h
      have := sendFresh_unavailable_rollback e (storeDeleteByPhone s phone) now phone h'
      simpa [SendOTP, hf, hcool]

/-- Witness for C5: a failing dispatch on a fresh issuance leaves no record
behind. -/
theorem sendOTP_dispatch_rollback_witness :
    (SendOTP dispatchFailEnv emptyStore 0 "+15551230000").store "+15551230000" = none :=
  sendOTP_dispatch_rollback dispatchFailEnv emptyStore 0 "+15551230000" rfl

/-! ### Issuer: code never echoed to the caller -/

/-- A successful run of the post-lookup issuance tail reports
`Success = true`. -/
theorem sendFresh_ok_success (e : SendEnv) (s : Store) (now : Int) (phone : String)
    (resp : OTPResponse) (h : (sendFresh e s now phone).res = .ok resp) :
    resp.success = true := by
  cases hg : e.genResult with
  | none => simp [sendFresh, hg] at h
  | some code =>
    by_cases hc : e.createErr
    · simp [sendFresh, hg, hc] at h
    · by_cases hd : e.dispatchErr
      · simp [sendFresh, hg, hc, hd] at h
      · have h' : ({ success := true, message := "OTP sent successfully"
                     otp := code, expiresAt := now + fiveMinutes } : OTPResponse) = resp := by
          simpa [sendFresh, hg, hc, hd] using h
        rw [← h']

/-- C9: the response delivered to the issuance caller never contains the
generated code.  For every `SendOTP` call returning a non-error response,
the HTTP endpoint's post-processing leaves the `OTP` field empty (a
successful issuance has it blanked; the already-sent response never carried
it) while the expiry timestamp is passed through unchanged. -/
theorem sendOTP_code_not_echoed (e : SendEnv) (s : Store) (now : Int) (phone : String)
    (resp : OTPResponse) (h : (SendOTP e s now phone).res = .ok resp) :
    (sendOTPEndpointResponse resp).otp = ""
      ∧ (sendOTPEndpointResponse resp).expiresAt = resp.expiresAt := by
  have hexpiry : (sendOTPEndpointResponse resp).expiresAt = resp.expiresAt := by
    by_cases hr : resp.success <;> simp [sendOTPEndpointResponse, hr]
  refine ⟨?_, hexpiry⟩
  cases hf : findByPhone e.findErr s phone with
  | none =>
    have h' : (sendFresh e s now phone).res = .ok resp := by
      simpa [SendOTP, hf] using h
    have hs := sendFresh_ok_success e s now phone resp h'
    simp [sendOTPEndpointResponse, hs]
  | some r =>
    by_cases hcool : twoMinutes < r.expiresAt - now
    · have h' : alreadySentResp r.expiresAt = resp := by
        simpa [SendOTP, hf, hcool] using h
      rw [← h']
      simp [sendOTPEndpointResponse, alreadySentResp]
    · have h' : (sendFresh e (storeDeleteByPhone s phone) now phone).res = .ok resp := by
        simpa [SendOTP, hf, hcool] using h
      have hs := sendFresh_ok_success e (storeDeleteByPhone s phone) now phone resp h'
      simp [sendOTPEndpointResponse, hs]

/-- Witness for C9: a completed fresh issuance, as seen through the
endpoint, carries no code. -/
theorem sendOTP_code_not_echoed_witness :
    (sendOTPEndpointResponse
        { success := true, message := "OTP sent successfully"
          otp := "999999", expiresAt := (0 : Int) + fiveMinutes }).otp = ""
      ∧ (sendOTPEndpointResponse
          { success := true, message := "OTP sent successfully"
            otp := "999999", expiresAt := (0 : Int) + fiveMinutes }).expiresAt
        = ({ success := true, message := "OTP sent successfully"
             otp := "999999", expiresAt := (0 : Int) + fiveMinutes } : OTPResponse).expiresAt :=
  sendOTP_code_not_echoed okSendEnv emptyStore 0 "+15551230000" _ rfl

/-! ### Issuer: the Success flag is ambiguous -/

/-- C10: the cooldown ("already sent") path of `SendOTP` returns a nil
error together with a response whose `Success` field is `false`, while a
completed issuance returns `Success = true` — a caller branching only on
`Success` cannot distinguish the documented non-error already-sent outcome
from a failure. -/
theorem sendOTP_success_flag_ambiguity :
    (∀ (e : SendEnv) (s : Store) (now : Int) (phone : String) (r : OTP),
        e.findErr = false → s phone = some r → twoMinutes < r.expiresAt - now →
          (SendOTP e s now phone).res = .ok (alreadySentResp r.expiresAt)
            ∧ (alreadySentResp r.expiresAt).success = false)
    ∧ (∀ (e : SendEnv) (s : Store) (now : Int) (phone : String) (code : String),
        e.findErr = false → s phone = none → e.genResult = some code →
        e.createErr = false → e.dispatchErr = false →
          (SendOTP e s now phone).res
            = .ok { success := true, message := "OTP sent successfully"
                    otp := code, expiresAt := now + fiveMinutes }) := by
  constructor
  · intro e s now phone r hf hrec hcool
    refine ⟨?_, rfl⟩
    simp [SendOTP, findByPhone, hf, hrec, hcool]
  · intro e s now phone code hf hrec hg hc hd
    simp [SendOTP, sendFresh, findByPhone, hf, hrec, hg, hc, hd]

/-- Witness for C10: both outcomes at concrete inputs — the already-sent
response (`Success = false`, nil error) and a completed issuance
(`Success = true`). -/
theorem sendOTP_success_flag_ambiguity_witness :
    (SendOTP okSendEnv scenarioStore 0 "+15551230000").res
        = .ok (alreadySentResp scenarioOTP.expiresAt)
      ∧ (SendOTP okSendEnv emptyStore 0 "+15551230000").res
        = .ok { success := true, message := "OTP sent successfully"
                otp := "999999", expiresAt := (0 : Int) + fiveMinutes } :=
  ⟨(sendOTP_success_flag_ambiguity.1 okSendEnv scenarioStore 0 "+15551230000" scenarioOTP
      rfl (by decide) (by decide)).1,
   sendOTP_success_flag_ambiguity.2 okSendEnv emptyStore 0 "+15551230000" "999999"
      rfl rfl rfl rfl rfl⟩
